import Mathlib

/-!
Shallow embedding of the authentication/session/token core of the
Blog-Management-API repository, together with theorems settling the
specification claims about it.

Conventions of the embedding:
* `datetime.utcnow()` is modelled by an explicit `now : Nat` parameter
  (seconds since epoch); `timedelta(hours=h)` is `h * 3600`,
  `timedelta(minutes=m)` is `m * 60`.
* Database tables are lists of records; `query(...).filter_by(...).first()`
  is `List.find?`; a committed row update replaces the first matching
  element in place (`updateFirst`).
* Python exceptions are modelled by the `PyExc` type and fallible
  operations return `Except PyExc _`.
* Random token generation (`uuid4()`) is modelled by passing the fresh
  token string as an explicit parameter.
* The bcrypt library (an external collaborator) is modelled by the
  `Bcrypt` structure: an abstract `hashpw : password → salt → hash`
  function; `checkpw` follows the documented bcrypt behaviour of raising
  `ValueError` when the stored hash is malformed (invalid salt) and
  otherwise re-hashing with the salt embedded in the stored hash.
* String operations that Python performs on `str` values are written
  over `String.data` so that they evaluate inside the Lean kernel.
-/

/-- Python exception values that the embedded code can raise. -/
inductive PyExc where
| nameError : PyExc
| valueError : String → PyExc
| authenticationError : String → PyExc
deriving DecidableEq

/-- Equality of `Except` results is decidable once both components
are, so concrete runs of the embedded code can be checked by `decide`. -/
instance {ε α : Type} [DecidableEq ε] [DecidableEq α] : DecidableEq (Except ε α) := fun x y =>
match x, y with
| .ok a, .ok b =>
  if h : a = b then .isTrue (by rw [h]) else .isFalse (by intro hc; cases hc; exact h rfl)
| .error a, .error b =>
  if h : a = b then .isTrue (by rw [h]) else .isFalse (by intro hc; cases hc; exact h rfl)
| .ok _, .error _ => .isFalse (by intro hc; cases hc)
| .error _, .ok _ => .isFalse (by intro hc; cases hc)

/-- Replace the first element satisfying `p` by its image under `f`,
modelling a committed ORM row update. -/
def updateFirst (p : α → Bool) (f : α → α) : List α → List α
| [] => []
| x :: xs => if p x then f x :: xs else x :: updateFirst p f xs

/-- Python `s.startswith(p)`, written over the character lists. -/
def strStartsWith (s p : String) : Bool :=
p.data.isPrefixOf s.data

/-- Python `s.split(" ")`, written over the character lists. -/
def strSplitOnSpace (s : String) : List String :=
(s.data.splitOnP (· == ' ')).map (fun cs => String.mk cs)

/-- First `n` characters of a string (Python slicing `s[:n]`). -/
def strTake (s : String) (n : Nat) : String :=
String.mk (s.data.take n)

/-- Whether every character of the string is an ASCII digit and the
string is nonempty: the strings that coerce to an integer primary key. -/
def strIsIntLiteral (s : String) : Bool :=
!s.data.isEmpty && s.data.all (·.isDigit)

/-- Model of the bcrypt library (external collaborator): `hashpw` maps a
password and a salt to the full hash string, which embeds the salt as
its first 29 characters. Kept abstract as a field since its internals
are outside the repository. -/
structure Bcrypt where
hashpw : String → String → String

/-- A stored hash bcrypt accepts: the modular-crypt prefix followed by
cost and salt, 60 characters in total (the format bcrypt emits). -/
def Bcrypt.wellFormed (hashed : String) : Bool :=
strStartsWith hashed "$2b$" && hashed.data.length == 60

/-- `bcrypt.checkpw(password, hashed)`: raises `ValueError` on a
malformed stored hash, otherwise re-hashes the password with the salt
embedded in the stored hash (first 29 characters) and compares. -/
def Bcrypt.checkpw (b : Bcrypt) (password hashed : String) : Except PyExc Bool :=
if Bcrypt.wellFormed hashed then
  .ok (b.hashpw password (strTake hashed 29) == hashed)
else
  .error (.valueError "Invalid salt")

/-! ## Token/Session Manager — `src/api/v1/auth/token_management.py` -/

namespace TokenManager

/-- Row of the `token_users` table (class `TokenUser`). -/
structure TokenUser where
token : String
user_id : Int
created_at : Nat
expires_at : Nat
is_active : Bool
deriving DecidableEq

/-- Row of the `blacklisted_tokens` table (class `BlacklistedToken`). -/
structure BlacklistedToken where
token : String
blacklisted_at : Nat
expires_at : Nat
deriving DecidableEq

/-- The database state the `TokenManager` operates on. -/
structure TMState where
token_users : List TokenUser
blacklist : List BlacklistedToken
deriving DecidableEq

/-- `TokenManager.generate_token(user_id)`: the fresh `uuid4()` value is
the `token` parameter; the commit fails with an `IntegrityError`
(surfaced as `ValueError`) only on a primary-key collision. -/
def generate_token (lifetime_hours : Nat) (s : TMState) (user_id : Int)
    (now : Nat) (token : String) : Except PyExc (TMState × String × Nat) :=
let expires_at := now + lifetime_hours * 3600
if s.token_users.any (fun tu => tu.token == token) then
  .error (.valueError "Token generation failed: IntegrityError")
else
  .ok ({ s with token_users :=
          s.token_users ++ [⟨token, user_id, now, expires_at, true⟩] },
       token, expires_at)

/-- `TokenManager.validate_token(token)`. The blacklist is consulted
first; then the mapping is looked up filtered by `is_active=True`; an
expired record reaches the line `user_token.is_active = False`, which
references the undefined name `user_token` (the record is bound as
`token_user`), so Python raises `NameError` there — it is not a
`SQLAlchemyError`, hence not caught, and no state is committed. The
function therefore never mutates the state. -/
def validate_token (s : TMState) (token : String) (now : Nat) :
    Except PyExc (Bool × Option Int) :=
if s.blacklist.any (fun bt => bt.token == token) then
  .ok (false, none)
else
  match s.token_users.find? (fun tu => tu.token == token && tu.is_active) with
  | none => .ok (false, none)
  | some tu =>
    if tu.expires_at < now then
      .error .nameError
    else
      .ok (true, some tu.user_id)

/-- `TokenManager.blacklist_token(token, expires_at)`. The source omits
`.first()` on the query, so `user_token` is a `Query` object: the guard
`if user_token:` is always true and `user_token.is_active = False` sets
an attribute on the query object, mutating no `token_users` row — the
embedding accordingly leaves `token_users` unchanged. Inserting into
`blacklisted_tokens` hits a duplicate primary key when the token is
already blacklisted: the commit raises `IntegrityError` (a
`SQLAlchemyError`), the session rolls back, and `ValueError` is
raised. -/
def blacklist_token (s : TMState) (token : String) (expires_at : Nat)
    (now : Nat) : Except PyExc TMState :=
if s.blacklist.any (fun bt => bt.token == token) then
  .error (.valueError "Failed to blacklist token: IntegrityError")
else
  .ok { s with blacklist := s.blacklist ++ [⟨token, now, expires_at⟩] }

end TokenManager

/-! ## Auth Service — `src/api/v1/auth/service.py` and its routes
`src/api/v1/auth/routes.py` with the `require_auth` decorator from
`src/api/v1/utils/decorators.py` -/

namespace AuthSvc

/-- The fields of `models.user.User` that the service reads or writes. -/
structure SvcUser where
id : Int
email : String
password : String
last_login : Option Nat
password_reset_token : Option String
password_reset_expires : Option Nat
deriving DecidableEq

/-- `AuthService.validate_login(email, password)`. Looks the user up by
email, verifies with `bcrypt.checkpw` (a `ValueError` from a malformed
stored hash propagates: only `SQLAlchemyError` is caught), stamps
`last_login`, and returns a fresh session token — which
`_generate_session_token` produces as a bare `uuid4()` string stored
nowhere. -/
def validate_login (b : Bcrypt) (users : List SvcUser) (email password : String)
    (now : Nat) (fresh : String) : Except PyExc (List SvcUser × String) :=
match users.find? (fun u => u.email == email) with
| none => .error (.authenticationError "Invalid credentials")
| some u =>
  match b.checkpw password u.password with
  | .error e => .error e
  | .ok false => .error (.authenticationError "Invalid credentials")
  | .ok true =>
    .ok (updateFirst (fun v => v.email == email)
          (fun v => { v with last_login := some now }) users, fresh)

/-- Parse the strings that coerce to an integer primary key. -/
def pkOfString (s : String) : Option Int :=
if strIsIntLiteral s then
  some (Int.ofNat (s.data.foldl (fun n c => 10 * n + (c.toNat - 48)) 0))
else
  none

/-- `AuthService.logout_user(user_id)`. `routes.py` passes the bearer
token string, which `query(User).get(user_id)` treats as a primary key:
a non-integer string matches no row, so nothing changes; when a row is
found, only `password_reset_token` is cleared — no session or token
state exists to invalidate (`_generate_session_token` never stored
one), and the `TokenManager` store is untouched. -/
def logout_user (users : List SvcUser) (user_id : String) : List SvcUser :=
match pkOfString user_id with
| none => users
| some n =>
  updateFirst (fun u => u.id == n)
    (fun u => { u with password_reset_token := none }) users

/-- `POST /auth/logout`: the route body (header split, `logout_user`)
behind the `require_auth` decorator of `src/api/v1/utils/decorators.py`.
A missing or space-free header is answered 401 before the try block.
Otherwise the decorator calls `auth_service.validate_token(token)`, but
`AuthService` defines no `validate_token` method; the resulting
`AttributeError` lands in the blanket `except Exception` handler, whose
first line references `current_app` — a name never imported in that
module — so the handler itself raises `NameError`, which propagates
unhandled out of the view: the endpoint crashes instead of responding,
the route body is unreachable, and no state changes. -/
def logout_route (users : List SvcUser) (auth_header : Option String) :
    Except PyExc (List SvcUser × Nat × String) :=
match auth_header with
| none => .ok (users, 401, "No authentication token provided")
| some h =>
  if !h.data.contains ' ' then
    .ok (users, 401, "No authentication token provided")
  else
    .error .nameError

/-- `AuthService.generate_password_reset_token(email)`: raises
`AuthenticationError` when no user has the email, and on success stores
a fresh token with `password_reset_expires = datetime.utcnow()` — the
current time, not a future instant. -/
def generate_password_reset_token (users : List SvcUser) (email : String)
    (now : Nat) (fresh : String) : Except PyExc (List SvcUser × String) :=
match users.find? (fun u => u.email == email) with
| none => .error (.authenticationError "User not found")
| some _ =>
  .ok (updateFirst (fun u => u.email == email)
        (fun u => { u with password_reset_token := some fresh,
                           password_reset_expires := some now }) users, fresh)

/-- `AuthService.reset_password(token, new_password)`: finds a user by
`password_reset_token` alone — `password_reset_expires` is never
consulted — then stores the new hash and clears both reset fields. -/
def reset_password (b : Bcrypt) (users : List SvcUser) (token new_password : String)
    (salt : String) : Except PyExc (List SvcUser) :=
match users.find? (fun u => u.password_reset_token == some token) with
| none => .error (.authenticationError "Invalid or expired reset token")
| some _ =>
  .ok (updateFirst (fun u => u.password_reset_token == some token)
        (fun u => { u with password := b.hashpw new_password salt,
                           password_reset_token := none,
                           password_reset_expires := none }) users)

end AuthSvc

/-! ## JWT/Redis auth variant — `src/api/v1/auth.py` with the Redis
session store of `src/utils/redis_client.py` -/

namespace WebAuth

/-- The session payload stored in Redis on login. -/
structure SessionData where
user_id : Int
username : String
roles : List String
deriving DecidableEq

/-- The fields of `models.user.User` that this variant reads or writes. -/
structure WebUser where
id : Int
username : String
email : String
password : String
is_active : Bool
last_login : Option Nat
password_reset_token : Option String
password_reset_expires : Option Nat
roles : List String
deriving DecidableEq

/-- Database users plus the Redis key space: entries are
(key, session data, absolute expiry) — `SET ... ex=ttl` makes the key
vanish at set-time + ttl. -/
structure WebState where
users : List WebUser
redis : List (String × SessionData × Nat)
deriving DecidableEq

/-- `RedisClient.session_get(session_id)`: a GET of key
`session:{session_id}`, absent once expired. -/
def session_get (s : WebState) (session_id : String) (now : Nat) : Option SessionData :=
(s.redis.find? (fun e => e.1 == "session:" ++ session_id && decide (now < e.2.2))).map
  (fun e => e.2.1)

/-- `RedisClient.session_delete(session_id)`. -/
def session_delete (s : WebState) (session_id : String) : WebState :=
{ s with redis := s.redis.filter (fun e => !(e.1 == "session:" ++ session_id)) }

/-- A decoded JWT payload. Signature verification is outside the state
model: `require_auth` below receives payloads of tokens this server
signed. -/
structure JwtPayload where
user_id : Int
session_id : String
exp : Nat
deriving DecidableEq

/-- The `require_auth` decorator of `src/api/v1/auth.py`: expiry check
from `jwt.decode`, then the Redis session lookup; on success resolves
the user id. -/
def require_auth (s : WebState) (payload : JwtPayload) (now : Nat) :
    Except String Int :=
if payload.exp < now then
  .error "Token has expired"
else
  match session_get s payload.session_id now with
  | none => .error "Invalid or expired session"
  | some _ => .ok payload.user_id

/-- `POST /auth/reset-password` (`request_password_reset`): always
answers 200, with one message when no user has the email and another
after storing a fresh token expiring 24 hours later. Returns
(state, HTTP status, message). -/
def request_password_reset (s : WebState) (email : Option String) (now : Nat)
    (fresh : String) : WebState × Nat × String :=
match email with
| none => (s, 400, "Email is required")
| some em =>
  match s.users.find? (fun u => u.email == em) with
  | none => (s, 200, "Password reset instructions sent if email exists")
  | some _ =>
    let users2 := updateFirst (fun u => u.email == em)
      (fun u => { u with password_reset_token := some fresh,
                         password_reset_expires := some (now + 24 * 3600) }) s.users
    ({ s with users := users2 }, 200, "Password reset instructions sent")

/-- The row filter of `POST /auth/reset-password/<token>`: token match
and `password_reset_expires > utcnow()` (a NULL expiry compares
false). -/
def resetMatch (token : String) (now : Nat) (u : WebUser) : Bool :=
u.password_reset_token == some token &&
  (match u.password_reset_expires with
   | some e => decide (now < e)
   | none => false)

/-- `POST /auth/reset-password/<token>` (`reset_password`): rejects with
400 unless some user passes `resetMatch`; on success stores the new
hash (via `hash_password`, salt drawn fresh) and clears both reset
fields. The Redis session store is never touched. Returns
(state, HTTP status, message). -/
def reset_password (b : Bcrypt) (s : WebState) (token : String)
    (new_password : Option String) (now : Nat) (salt : String) :
    WebState × Nat × String :=
match new_password with
| none => (s, 400, "New password is required")
| some pw =>
  match s.users.find? (resetMatch token now) with
  | none => (s, 400, "Invalid or expired reset token")
  | some _ =>
    let users2 := updateFirst (resetMatch token now)
      (fun u => { u with password := b.hashpw pw salt,
                         password_reset_token := none,
                         password_reset_expires := none }) s.users
    ({ s with users := users2 }, 200, "Password reset successful")

end WebAuth

/-! ## Password utilities — `src/utils/password.py` -/

namespace PasswordUtil

/-- `hash_password(password)`: bcrypt hash with a per-call salt (the
fresh `gensalt()` value is the `salt` parameter); returns
(hash, salt). -/
def hash_password (b : Bcrypt) (password salt : String) : String × String :=
(b.hashpw password salt, salt)

/-- `verify_password(password, hashed)`: a bare delegation to
`bcrypt.checkpw` with no exception handling, so a `ValueError` raised
on a malformed stored hash propagates to the caller. -/
def verify_password (b : Bcrypt) (password hashed : String) : Except PyExc Bool :=
b.checkpw password hashed

end PasswordUtil

/-! ## Redis token service and RBAC gate —
`src/services/token_service.py` and `src/api/v1/users/decorators.py` -/

namespace Gate

/-- Redis keys `session:{token}` mapped to user ids, plus the user
table reduced to id and role names. Expired Redis keys are absent. -/
structure GateState where
redis : List (String × Int)
users : List (Int × List String)
deriving DecidableEq

/-- `TokenService.generate_session_token(user_id)`: stores the fresh
`uuid4()` token under key `session:{token}` and returns it. -/
def generate_session_token (g : GateState) (user_id : Int) (fresh : String) :
    GateState × String :=
({ g with redis := g.redis ++ [("session:" ++ fresh, user_id)] }, fresh)

/-- `TokenService.validate_session_token(token)`: a GET of
`session:{token}`, yielding the user id or `None`. -/
def validate_session_token (g : GateState) (token : String) : Option Int :=
(g.redis.find? (fun e => e.1 == "session:" ++ token)).map (fun e => e.2)

/-- Outcome of the `require_role` guard: an error response
(status, message) or admission with the resolved user id. -/
inductive GateResult where
| denied : Nat → String → GateResult
| allowed : Int → GateResult
deriving DecidableEq

/-- The `require_role(required_roles)` decorator: bearer-header shape
check, token validation via `TokenService`, then — only after the
token resolved — the user lookup (404 when the user no longer exists)
and the role-intersection check. -/
def require_role (g : GateState) (required_roles : List String)
    (auth_header : Option String) : GateResult :=
match auth_header with
| none => .denied 401 "Authentication required"
| some h =>
  if !strStartsWith h "Bearer " then
    .denied 401 "Authentication required"
  else
    let token := (strSplitOnSpace h).getD 1 ""
    match validate_session_token g token with
    | none => .denied 401 "Invalid or expired token"
    | some uid =>
      match g.users.find? (fun e => e.1 == uid) with
      | none => .denied 404 "User not found"
      | some (_, user_roles) =>
        if !required_roles.any (fun r => user_roles.contains r) then
          .denied 403 "Access denied"
        else
          .allowed uid

end Gate

/-! ## Lockout policy — `src/services/auth_services.py` with
`src/models/login_attempt.py`; the `User` lockout fields and the
lockout-aware login are absent from `src/` and are modelled from the
spec. -/

namespace Lockout

/-- A user as seen by the lockout service: the profile fields of
`models.user.User` plus `failed_login_count` and `locked_until`, which
`AuthService.handle_login_attempt` writes but which are missing from
the `User` model under `src/` (modelled from the spec, §3). -/
structure LockUser where
id : Int
username : String
email : String
password : String
is_active : Bool
last_login : Option Nat
failed_login_count : Nat
locked_until : Option Nat
deriving DecidableEq

/-- Row of `login_attempts` (`models/login_attempt.py`). -/
structure LoginAttempt where
user_id : Int
success : Bool
ip_address : String
timestamp : Nat
deriving DecidableEq

/-- Users plus the append-only login-attempt log. -/
structure LockState where
users : List LockUser
attempts : List LoginAttempt
deriving DecidableEq

/-- Modelled from the spec: `User.increment_failed_login` is called by
`AuthService.handle_login_attempt` (src/services/auth_services.py:44)
but no `User` model under `src/` defines it; per §3 it increments
`failed_login_count` and, on reaching the threshold of 5, sets
`locked_until` to now + 30 minutes. -/
def increment_failed_login (u : LockUser) (now : Nat) : LockUser :=
let c := u.failed_login_count + 1
{ u with failed_login_count := c,
         locked_until := if 5 ≤ c then some (now + 30 * 60) else u.locked_until }

/-- `AuthService.handle_login_attempt(user, success, ip_address)` from
`src/services/auth_services.py`: appends a `LoginAttempt` row and
either resets the counter and lock on success or calls
`increment_failed_login` on failure. -/
def handle_login_attempt (s : LockState) (user_id : Int) (success : Bool)
    (ip_address : String) (now : Nat) : LockState :=
{ users := updateFirst (fun u => u.id == user_id)
    (fun u =>
      if success then
        { u with failed_login_count := 0, locked_until := none,
                 last_login := some now }
      else
        increment_failed_login u now) s.users,
  attempts := s.attempts ++ [⟨user_id, success, ip_address, now⟩] }

/-- Modelled from the spec: `is_locked`, computed from `locked_until`
(§4.3) — locked while `locked_until` lies in the future. -/
def is_locked (u : LockUser) (now : Nat) : Bool :=
match u.locked_until with
| some t => decide (now < t)
| none => false

/-- Outcome of a login attempt. -/
inductive LoginResult where
| success : Int → LoginResult
| invalidCredentials : LoginResult
| accountLocked : LoginResult
| accountInactive : LoginResult
| internalError : LoginResult
deriving DecidableEq

/-- Modelled from the spec: no login routine under `src/` consults
`locked_until`, so the lockout-aware login of §4.3/§3 is modelled here:
lookup by username or email, rejection with `AccountLocked` while
locked (before any credential check, since §3 makes the rejection
independent of credential correctness), `AccountInactive` for disabled
accounts, then hash verification, delegating all counter and lockout
bookkeeping to `handle_login_attempt` from the source. -/
def login (b : Bcrypt) (s : LockState) (identifier password ip : String)
    (now : Nat) : LoginResult × LockState :=
match s.users.find? (fun u => u.username == identifier || u.email == identifier) with
| none => (.invalidCredentials, s)
| some u =>
  if is_locked u now then
    (.accountLocked, s)
  else if !u.is_active then
    (.accountInactive, s)
  else
    match b.checkpw password u.password with
    | .ok true => (.success u.id, handle_login_attempt s u.id true ip now)
    | .ok false => (.invalidCredentials, handle_login_attempt s u.id false ip now)
    | .error _ => (.internalError, s)

end Lockout

/-! ## Shared concrete instances for witnesses and counterexamples -/

/-- A concrete bcrypt instance: hash = salt followed by the password.
Any function of the right type exercises the embedded control flow. -/
def bDemo : Bcrypt := ⟨fun p s => s ++ p⟩

/-- A 29-character bcrypt salt prefix (`$2b$` + cost + 22 salt chars). -/
def demoSalt : String := "$2b$12$abcdefghijklmnopqrstuv"

/-- A 31-character password, sized so `demoHash` is 60 characters. -/
def demoPw : String := "correcthorsebatterystaplecorrec"

/-- A well-formed stored hash that `bDemo` verifies for `demoPw`. -/
def demoHash : String := demoSalt ++ demoPw

/-! ## Helper lemmas about the list primitives of the embedding -/

theorem expiresMatch_iff (o : Option Nat) (now : Nat) :
    ((match o with
      | some e => decide (now < e)
      | none => false) = true) ↔ ∃ e, o = some e ∧ now < e := by
cases o <;> simp

theorem find?_append_left_none {α} (p : α → Bool) (l1 l2 : List α)
    (h : l1.find? p = none) : (l1 ++ l2).find? p = l2.find? p := by
rw [List.find?_append, h, Option.none_or]

theorem mem_updateFirst_of_find? {α} (p : α → Bool) (f : α → α)
    (l : List α) (u : α) (h : l.find? p = some u) :
    f u ∈ updateFirst p f l := by
induction l with
| nil => simp [List.find?] at h
| cons x xs ih =>
  cases hx : p x with
  | true =>
    rw [List.find?_cons_of_pos _ hx] at h
    cases h
    simp [updateFirst, hx]
  | false =>
    rw [List.find?_cons_of_neg _ (by simp [hx])] at h
    simp only [updateFirst, hx, if_neg, Bool.false_eq_true, not_false_iff]
    exact List.mem_cons_of_mem x (ih h)

/-- After `updateFirst` rewrites the one element that matched, no
element of the result matches `tokMatch` any more, provided the list
held at most one `tokMatch` element, the update predicate implies
`tokMatch`, and the rewrite clears `tokMatch`. -/
theorem updateFirst_clears_tokMatch {α} (tokMatch mPred : α → Bool) (f : α → α)
    (hsub : ∀ v, mPred v = true → tokMatch v = true)
    (hclear : ∀ v, tokMatch (f v) = false) :
    ∀ l : List α, l.countP tokMatch ≤ 1 → (l.find? mPred).isSome →
      ∀ v ∈ updateFirst mPred f l, tokMatch v = false := by
intro l
induction l with
| nil => intro _ hf; simp [List.find?] at hf
| cons x xs ih =>
  intro hcount hfind v hv
  cases hx : mPred x with
  | true =>
    have hupd : updateFirst mPred f (x :: xs) = f x :: xs := by
      simp [updateFirst, hx]
    rw [hupd] at hv
    rcases List.mem_cons.mp hv with h1 | h1
    · rw [h1]; exact hclear x
    · have hx' := hsub x hx
      have h0 : xs.countP tokMatch = 0 := by
        rw [List.countP_cons, hx'] at hcount
        rw [show (if (true = true) then 1 else 0) = 1 from rfl] at hcount
        omega
      simpa using List.countP_eq_zero.mp h0 v h1
  | false =>
    have hupd : updateFirst mPred f (x :: xs) = x :: updateFirst mPred f xs := by
      simp [updateFirst, hx]
    rw [hupd] at hv
    rw [List.find?_cons_of_neg _ (by simp [hx])] at hfind
    rcases List.mem_cons.mp hv with h1 | h1
    · cases hx' : tokMatch x with
      | false => rw [h1]; exact hx'
      | true =>
        exfalso
        rcases List.find?_isSome.mp hfind with ⟨w, hw, hpw⟩
        have hw' := hsub w hpw
        have hpos : 0 < xs.countP tokMatch := List.countP_pos_iff.mpr ⟨w, hw, hw'⟩
        rw [List.countP_cons, hx'] at hcount
        rw [show (if (true = true) then 1 else 0) = 1 from rfl] at hcount
        omega
    · have hcount' : xs.countP tokMatch ≤ 1 := by
        rw [List.countP_cons] at hcount
        cases hx'' : tokMatch x with
        | false =>
          rw [hx''] at hcount
          rw [show (if (false = true) then 1 else 0) = 0 from rfl] at hcount
          omega
        | true =>
          rw [hx''] at hcount
          rw [show (if (true = true) then 1 else 0) = 1 from rfl] at hcount
          omega
      exact ih hcount' hfind v h1

/-! ## Claim C1 — `TokenManager.validate_token` -/

/-- A token store holding one expired-but-active token (`tokA`), one
live active token (`tokB`), one live inactive token (`tokC`), and one
live active token that is also blacklisted (`tokE`). -/
def tmC1 : TokenManager.TMState :=
{ token_users :=
    [⟨"tokA", 7, 0, 100, true⟩,
     ⟨"tokB", 8, 0, 1000, true⟩,
     ⟨"tokC", 9, 0, 1000, false⟩,
     ⟨"tokE", 10, 0, 1000, true⟩],
  blacklist := [⟨"tokE", 5, 1000⟩] }

/-- Claim C1 (code_bug): the absent, inactive, blacklisted and
live-active cases behave as the claim states — in particular a
blacklisted token with an active, unexpired mapping is invalid — but on
an expired-but-still-active record `validate_token` raises an unhandled
`NameError` (line 93 references the undefined name `user_token`)
instead of returning `(false, None)` and flipping the `active` flag. -/
theorem C1_validate_token_behaviour :
    TokenManager.validate_token tmC1 "tokB" 200 = .ok (true, some 8) ∧
    TokenManager.validate_token tmC1 "missing" 200 = .ok (false, none) ∧
    TokenManager.validate_token tmC1 "tokC" 200 = .ok (false, none) ∧
    TokenManager.validate_token tmC1 "tokE" 200 = .ok (false, none) ∧
    TokenManager.validate_token tmC1 "tokA" 200 = .error .nameError := by
decide

/-! ## Claim C2 — `TokenManager.blacklist_token` -/

/-- A token store holding a single live active token `tokB`. -/
def tmC2 : TokenManager.TMState :=
{ token_users := [⟨"tokB", 8, 0, 1000, true⟩], blacklist := [] }

/-- Claim C2 (code_bug): revoking the same token twice is not the same
as revoking it once — after the first `blacklist_token` the
token-to-user mapping row is still `is_active = true` (the missing
`.first()` makes the deactivation a write to the `Query` object), and
the second call raises `ValueError` from the duplicate-primary-key
`IntegrityError` instead of being a no-op. -/
theorem C2_blacklist_token_not_idempotent :
    TokenManager.blacklist_token tmC2 "tokB" 1000 50 =
      .ok { token_users := [⟨"tokB", 8, 0, 1000, true⟩],
            blacklist := [⟨"tokB", 50, 1000⟩] } ∧
    TokenManager.blacklist_token
      { token_users := [⟨"tokB", 8, 0, 1000, true⟩],
        blacklist := [⟨"tokB", 50, 1000⟩] } "tokB" 1000 60 =
      .error (.valueError "Failed to blacklist token: IntegrityError") := by
decide

/-! ## Claim C3 — logout never invalidates the session token -/

/-- The token store holding the valid session token of user 7. -/
def tmC3 : TokenManager.TMState :=
{ token_users := [⟨"3f2c-tok", 7, 0, 1000, true⟩], blacklist := [] }

/-- The user table for the logout scenario. -/
def svcUsersC3 : List AuthSvc.SvcUser :=
[⟨7, "a@x.com", demoHash, none, some "rt", some 99⟩]

/-- Claim C3 (code_bug): for a token that currently validates as valid,
the logout endpoint does not succeed and does not revoke — the
`require_auth` decorator calls the nonexistent
`AuthService.validate_token`, and its `except Exception` handler then
crashes on the unimported name `current_app`, so the request dies with
an unhandled `NameError` (an HTTP 500) and no state changes; even the
route body it guards — `logout_user` — would only treat the token as a
user primary key and clear `password_reset_token`; nothing revokes the
token, which still validates as `(true, 7)` afterwards instead of
becoming invalid. -/
theorem C3_logout_does_not_revoke :
    TokenManager.validate_token tmC3 "3f2c-tok" 10 = .ok (true, some 7) ∧
    AuthSvc.logout_route svcUsersC3 (some "Bearer 3f2c-tok") = .error .nameError ∧
    AuthSvc.logout_user svcUsersC3 "3f2c-tok" = svcUsersC3 ∧
    TokenManager.validate_token tmC3 "3f2c-tok" 20 = .ok (true, some 7) := by
decide

/-! ## Claim C9 — `verify_password` on malformed hashes -/

/-- Claim C9 counterexample: on the malformed stored hash "nothash",
`verify_password` does not return a boolean — it raises the
`ValueError` coming out of `bcrypt.checkpw`, refuting "never raises an
exception; on a malformed stored hash it returns false". -/
theorem C9_verify_password_raises_on_malformed :
    PasswordUtil.verify_password bDemo "anypw" "nothash" =
      .error (.valueError "Invalid salt") := by
decide

/-- Claim C9 (amended): `verify_password` returns a boolean and raises
nothing whenever the stored hash is a well-formed bcrypt hash; on a
malformed stored hash it raises `ValueError` rather than returning
false. -/
theorem C9_verify_password_total_on_wellformed (b : Bcrypt) (password hashed : String) :
    (Bcrypt.wellFormed hashed = true →
      ∃ r : Bool, PasswordUtil.verify_password b password hashed = .ok r) ∧
    (Bcrypt.wellFormed hashed = false →
      PasswordUtil.verify_password b password hashed =
        .error (.valueError "Invalid salt")) := by
constructor
· intro hw
  exact ⟨b.hashpw password (strTake hashed 29) == hashed,
    by simp [PasswordUtil.verify_password, Bcrypt.checkpw, hw]⟩
· intro hw
  simp [PasswordUtil.verify_password, Bcrypt.checkpw, hw]

/-- Witness for C9: the well-formed branch at `demoHash` and the
malformed branch at "bad" both follow from the theorem at concrete
inputs. -/
theorem C9_verify_password_total_on_wellformed_witness :
    (∃ r : Bool, PasswordUtil.verify_password bDemo demoPw demoHash = .ok r) ∧
    PasswordUtil.verify_password bDemo demoPw "bad" =
      .error (.valueError "Invalid salt") :=
⟨(C9_verify_password_total_on_wellformed bDemo demoPw demoHash).1 (by decide),
 (C9_verify_password_total_on_wellformed bDemo demoPw "bad").2 (by decide)⟩

/-! ## Claim C7 — no account enumeration through login errors -/

/-- Claim C7 (confirmed): when the identifier matches no user and when
it matches a user whose password verification fails, `validate_login`
fails with the same exception constructor and the byte-identical
message "Invalid credentials". -/
theorem C7_login_errors_identical (b : Bcrypt) (users : List AuthSvc.SvcUser)
    (e1 p1 e2 p2 : String) (now1 now2 : Nat) (f1 f2 : String)
    (u : AuthSvc.SvcUser)
    (h1 : users.find? (fun v => v.email == e1) = none)
    (h2 : users.find? (fun v => v.email == e2) = some u)
    (hbad : b.checkpw p2 u.password = .ok false) :
    AuthSvc.validate_login b users e1 p1 now1 f1 =
      .error (.authenticationError "Invalid credentials") ∧
    AuthSvc.validate_login b users e2 p2 now2 f2 =
      .error (.authenticationError "Invalid credentials") := by
constructor
· simp [AuthSvc.validate_login, h1]
· simp [AuthSvc.validate_login, h2, hbad]

/-- The user table for the enumeration witness: one registered user. -/
def svcUsersC7 : List AuthSvc.SvcUser :=
[⟨3, "real@x.com", demoHash, none, none, none⟩]

/-- Witness for C7 at a nonexistent email and at the registered email
with a wrong password. -/
theorem C7_login_errors_identical_witness :
    AuthSvc.validate_login bDemo svcUsersC7 "nonexistent@x.com" "anything" 5 "f1" =
      .error (.authenticationError "Invalid credentials") ∧
    AuthSvc.validate_login bDemo svcUsersC7 "real@x.com" "wrongpassword" 6 "f2" =
      .error (.authenticationError "Invalid credentials") :=
C7_login_errors_identical bDemo svcUsersC7 "nonexistent@x.com" "anything"
  "real@x.com" "wrongpassword" 5 6 "f1" "f2"
  ⟨3, "real@x.com", demoHash, none, none, none⟩
  (by decide) (by decide) (by decide)

/-! ## Claim C5 — password reset does not invalidate sessions -/

/-- User 1 with a pending reset token and a live Redis session. -/
def webC5 : WebAuth.WebState :=
{ users := [⟨1, "alice", "a@x.com", demoHash, true, none, some "rt", some 1000, ["user"]⟩],
  redis := [("session:sid1", ⟨1, "alice", ["user"]⟩, 5000)] }

/-- Claim C5 counterexample: the reset for user 1 succeeds (HTTP 200),
yet the session token previously issued to user 1 still validates
afterwards — `require_auth` resolves it to user 1 — refuting "every
session token previously issued to that user validates as invalid". -/
theorem C5_session_survives_reset :
    (WebAuth.reset_password bDemo webC5 "rt" (some "NewPw1") 500 "saltX").2.1 = 200 ∧
    WebAuth.require_auth
      (WebAuth.reset_password bDemo webC5 "rt" (some "NewPw1") 500 "saltX").1
      ⟨1, "sid1", 5000⟩ 600 = .ok 1 := by
decide

/-- Claim C5 (amended): a successful `reset_password` updates the
password and clears the reset fields but performs no session
invalidation at all — the Redis session store is untouched and every
authentication decision is unchanged by the reset. -/
theorem C5_reset_password_preserves_sessions (b : Bcrypt) (s : WebAuth.WebState)
    (tok : String) (pw : Option String) (now : Nat) (salt : String) :
    ((WebAuth.reset_password b s tok pw now salt).1).redis = s.redis ∧
    ∀ (payload : WebAuth.JwtPayload) (t : Nat),
      WebAuth.require_auth (WebAuth.reset_password b s tok pw now salt).1 payload t =
        WebAuth.require_auth s payload t := by
have hredis : ((WebAuth.reset_password b s tok pw now salt).1).redis = s.redis := by
  unfold WebAuth.reset_password
  cases pw with
  | none => rfl
  | some p =>
    cases hf : s.users.find? (WebAuth.resetMatch tok now) with
    | none => simp [hf]
    | some u => simp [hf]
refine ⟨hredis, fun payload t => ?_⟩
unfold WebAuth.require_auth WebAuth.session_get
rw [hredis]

/-! ## Claim C8 — password-reset request behaviour -/

/-- The reduced user table for the reset-request scenarios. -/
def svcUsersC8 : List AuthSvc.SvcUser :=
[⟨1, "u@x.com", demoHash, none, none, none⟩]

/-- The web-variant state for the reset-request scenarios. -/
def webC8 : WebAuth.WebState :=
{ users := [⟨1, "u", "u@x.com", demoHash, true, none, none, none, ["user"]⟩],
  redis := [] }

/-- Claim C8 counterexample: the `AuthService` variant surfaces an
error ("User not found") for an unregistered email instead of
returning success, and for a registered email it stamps
`password_reset_expires` with the current time (500), not 24 hours
ahead; the endpoint variant does return 200 in both cases but with
different messages, so the caller-visible behaviour is not identical
either. -/
theorem C8_reset_request_discrepancies :
    AuthSvc.generate_password_reset_token svcUsersC8 "missing@x.com" 500 "frA" =
      .error (.authenticationError "User not found") ∧
    AuthSvc.generate_password_reset_token svcUsersC8 "u@x.com" 500 "frB" =
      .ok ([⟨1, "u@x.com", demoHash, none, some "frB", some 500⟩], "frB") ∧
    (WebAuth.request_password_reset webC8 (some "missing@x.com") 500 "frC").2.2 ≠
      (WebAuth.request_password_reset webC8 (some "u@x.com") 500 "frD").2.2 := by
decide

/-- Claim C8 (amended): the endpoint `request_password_reset` answers
HTTP 200 without surfacing an error whether or not the email is
registered — though with different success messages in the two cases —
and when a user exists it persists a reset token expiring 24 hours in
the future; the `AuthService.generate_password_reset_token` variant
instead raises "User not found" for unknown emails and stamps
`password_reset_expires` with the current time. -/
theorem C8_reset_request_behaviour (s : WebAuth.WebState)
    (users : List AuthSvc.SvcUser) (em : String) (now : Nat) (fresh : String) :
    (s.users.find? (fun u => u.email == em) = none →
      WebAuth.request_password_reset s (some em) now fresh =
        (s, 200, "Password reset instructions sent if email exists")) ∧
    (∀ u, s.users.find? (fun u => u.email == em) = some u →
      (WebAuth.request_password_reset s (some em) now fresh).2.1 = 200 ∧
      (WebAuth.request_password_reset s (some em) now fresh).2.2 =
        "Password reset instructions sent" ∧
      ∃ v ∈ ((WebAuth.request_password_reset s (some em) now fresh).1).users,
        v.email = u.email ∧ v.password_reset_token = some fresh ∧
        v.password_reset_expires = some (now + 24 * 3600)) ∧
    (users.find? (fun u => u.email == em) = none →
      AuthSvc.generate_password_reset_token users em now fresh =
        .error (.authenticationError "User not found")) ∧
    (∀ u, users.find? (fun u => u.email == em) = some u →
      ∃ us2, AuthSvc.generate_password_reset_token users em now fresh =
          .ok (us2, fresh) ∧
        ∃ v ∈ us2, v.email = u.email ∧ v.password_reset_token = some fresh ∧
          v.password_reset_expires = some now) := by
refine ⟨?_, ?_, ?_, ?_⟩
· intro hf
  simp [WebAuth.request_password_reset, hf]
· intro u hf
  refine ⟨?_, ?_, ?_⟩
  · simp [WebAuth.request_password_reset, hf]
  · simp [WebAuth.request_password_reset, hf]
  · have hmem := mem_updateFirst_of_find? (fun v => v.email == em)
      (fun v => { v with password_reset_token := some fresh,
                         password_reset_expires := some (now + 24 * 3600) })
      s.users u hf
    refine ⟨{ u with password_reset_token := some fresh, password_reset_expires := some (now + 24 * 3600) }, ?_, rfl, rfl, rfl⟩
    simpa [WebAuth.request_password_reset, hf] using hmem
· intro hf
  simp [AuthSvc.generate_password_reset_token, hf]
· intro u hf
  have hmem := mem_updateFirst_of_find? (fun v => v.email == em)
    (fun v => { v with password_reset_token := some fresh,
                       password_reset_expires := some now })
    users u hf
  refine ⟨_, ?_, { u with password_reset_token := some fresh, password_reset_expires := some now }, hmem, rfl, rfl, rfl⟩
  simp [AuthSvc.generate_password_reset_token, hf]

/-- Witness for C8, applying the theorem at the unregistered email
"missing@x.com" and at the registered email "u@x.com" of the concrete
states. -/
theorem C8_reset_request_behaviour_witness :
    (WebAuth.request_password_reset webC8 (some "missing@x.com") 500 "frC" =
      (webC8, 200, "Password reset instructions sent if email exists")) ∧
    ((WebAuth.request_password_reset webC8 (some "u@x.com") 500 "frD").2.1 = 200) ∧
    (AuthSvc.generate_password_reset_token svcUsersC8 "missing@x.com" 500 "frA" =
      .error (.authenticationError "User not found")) ∧
    (∃ us2, AuthSvc.generate_password_reset_token svcUsersC8 "u@x.com" 500 "frB" =
        .ok (us2, "frB") ∧
      ∃ v ∈ us2, v.email = "u@x.com" ∧ v.password_reset_token = some "frB" ∧
        v.password_reset_expires = some 500) :=
⟨(C8_reset_request_behaviour webC8 svcUsersC8 "missing@x.com" 500 "frC").1 (by decide),
 ((C8_reset_request_behaviour webC8 svcUsersC8 "u@x.com" 500 "frD").2.1
    ⟨1, "u", "u@x.com", demoHash, true, none, none, none, ["user"]⟩ (by decide)).1,
 (C8_reset_request_behaviour webC8 svcUsersC8 "missing@x.com" 500 "frA").2.2.1 (by decide),
 (C8_reset_request_behaviour webC8 svcUsersC8 "u@x.com" 500 "frB").2.2.2
   ⟨1, "u@x.com", demoHash, none, none, none⟩ (by decide)⟩

/-! ## Claim C4 — password-reset completion -/

/-- Characterization of the row filter used by the endpoint variant. -/
theorem resetMatch_iff (tok : String) (now : Nat) (u : WebAuth.WebUser) :
    WebAuth.resetMatch tok now u = true ↔
      u.password_reset_token = some tok ∧
        ∃ e, u.password_reset_expires = some e ∧ now < e := by
cases h : u.password_reset_expires with
| none => simp [WebAuth.resetMatch, h]
| some e => simp [WebAuth.resetMatch, h]

/-- Claim C4 counterexample: `AuthService.reset_password` never reads a
clock, so a token whose `password_reset_expires` (100) is long past is
still accepted — the call succeeds and rewrites the password, where
the claim requires failure with the invalid-or-expired error. -/
theorem C4_expired_token_accepted :
    AuthSvc.reset_password bDemo
      [⟨1, "u@x.com", demoHash, none, some "rt", some 100⟩]
      "rt" "NewPw1" "saltZ" =
      .ok [⟨1, "u@x.com", "saltZNewPw1", none, none, none⟩] := by
decide

/-- Claim C4 (amended): the endpoint variant of `reset_password`
(api/v1/auth.py) succeeds exactly when some user carries the token with
an expiry still in the future, and — since success clears the token —
a repeat call with the same token fails with 400, provided at most one
user carries the token (the unique index on `password_reset_token`);
the `AuthService.reset_password` variant succeeds exactly when some
user carries the token, with no expiry check at all. -/
theorem C4_reset_password_behaviour (b : Bcrypt) (s : WebAuth.WebState)
    (users : List AuthSvc.SvcUser) (tok pw : String) (now : Nat) (salt : String) :
    ((WebAuth.reset_password b s tok (some pw) now salt).2.1 = 200 ↔
      ∃ u ∈ s.users, u.password_reset_token = some tok ∧
        ∃ e, u.password_reset_expires = some e ∧ now < e) ∧
    (s.users.countP (fun u => u.password_reset_token == some tok) ≤ 1 →
      (WebAuth.reset_password b s tok (some pw) now salt).2.1 = 200 →
      ∀ (b2 : Bcrypt) (pw2 : String) (now2 : Nat) (salt2 : String),
        (WebAuth.reset_password b2
          (WebAuth.reset_password b s tok (some pw) now salt).1
          tok (some pw2) now2 salt2).2.1 = 400) ∧
    ((∃ us2, AuthSvc.reset_password b users tok pw salt = .ok us2) ↔
      ∃ u ∈ users, u.password_reset_token = some tok) := by
have hchar : ((WebAuth.reset_password b s tok (some pw) now salt).2.1 = 200) ↔
    (s.users.find? (WebAuth.resetMatch tok now)).isSome := by
  cases hf : s.users.find? (WebAuth.resetMatch tok now) <;>
    simp [WebAuth.reset_password, hf]
refine ⟨?_, ?_, ?_⟩
· rw [hchar, List.find?_isSome]
  constructor
  · rintro ⟨u, hu, hp⟩
    exact ⟨u, hu, (resetMatch_iff tok now u).mp hp⟩
  · rintro ⟨u, hu, h1, e, h2, h3⟩
    exact ⟨u, hu, (resetMatch_iff tok now u).mpr ⟨h1, e, h2, h3⟩⟩
· intro hcount hfirst b2 pw2 now2 salt2
  have hsome := hchar.mp hfirst
  have hclean := updateFirst_clears_tokMatch
    (fun u => u.password_reset_token == some tok)
    (WebAuth.resetMatch tok now)
    (fun u => { u with password := b.hashpw pw salt, password_reset_token := none, password_reset_expires := none })
    (fun v hv => by
      have := ((resetMatch_iff tok now v).mp hv).1
      simp [this])
    (fun v => by simp)
    s.users hcount hsome
  cases hf : s.users.find? (WebAuth.resetMatch tok now) with
  | none => rw [hf] at hsome; simp at hsome
  | some u =>
    have hnone : (updateFirst (WebAuth.resetMatch tok now)
        (fun u => { u with password := b.hashpw pw salt, password_reset_token := none, password_reset_expires := none })
        s.users).find? (WebAuth.resetMatch tok now2) = none := by
      rw [List.find?_eq_none]
      intro x hx hpx
      have htm := ((resetMatch_iff tok now2 x).mp hpx).1
      have hbad : (x.password_reset_token == some tok) = false := hclean x hx
      rw [htm] at hbad
      simp at hbad
    simp [WebAuth.reset_password, hf, hnone]
· cases hf : users.find? (fun u => u.password_reset_token == some tok) with
  | none =>
    constructor
    · rintro ⟨us2, hok⟩
      rw [AuthSvc.reset_password, hf] at hok
      cases hok
    · rintro ⟨u, hu, hp⟩
      have := List.find?_eq_none.mp hf u hu
      simp [hp] at this
  | some u =>
    constructor
    · intro _
      refine ⟨u, List.mem_of_find?_eq_some hf, ?_⟩
      have := List.find?_some hf
      simpa using this
    · intro _
      exact ⟨_, by rw [AuthSvc.reset_password, hf]⟩

/-- Endpoint-variant state for the C4 witness: one user carrying reset
token "rt" that expires at 1000. -/
def webC4 : WebAuth.WebState :=
{ users := [⟨1, "u", "u@x.com", demoHash, true, none, some "rt", some 1000, ["user"]⟩],
  redis := [] }

/-- Service-variant user table for the C4 witness. -/
def svcUsersC4 : List AuthSvc.SvcUser :=
[⟨1, "u@x.com", demoHash, none, some "rt", some 100⟩]

/-- Witness for C4: the first endpoint reset at time 500 succeeds, the
repeat call at time 600 fails with 400, and the service variant
succeeds on a bare token match. -/
theorem C4_reset_password_behaviour_witness :
    (WebAuth.reset_password bDemo webC4 "rt" (some "NewPw1") 500 "sX").2.1 = 200 ∧
    (WebAuth.reset_password bDemo
      (WebAuth.reset_password bDemo webC4 "rt" (some "NewPw1") 500 "sX").1
      "rt" (some "Pw2") 600 "sY").2.1 = 400 ∧
    (∃ us2, AuthSvc.reset_password bDemo svcUsersC4 "rt" "Pw3" "sZ" = .ok us2) :=
⟨(C4_reset_password_behaviour bDemo webC4 svcUsersC4 "rt" "NewPw1" 500 "sX").1.mpr
   ⟨⟨1, "u", "u@x.com", demoHash, true, none, some "rt", some 1000, ["user"]⟩,
    by decide, rfl, 1000, rfl, by decide⟩,
 (C4_reset_password_behaviour bDemo webC4 svcUsersC4 "rt" "NewPw1" 500 "sX").2.1
   (by decide)
   ((C4_reset_password_behaviour bDemo webC4 svcUsersC4 "rt" "NewPw1" 500 "sX").1.mpr
     ⟨⟨1, "u", "u@x.com", demoHash, true, none, some "rt", some 1000, ["user"]⟩,
      by decide, rfl, 1000, rfl, by decide⟩)
   bDemo "Pw2" 600 "sY",
 (C4_reset_password_behaviour bDemo webC4 svcUsersC4 "rt" "Pw3" 500 "sZ").2.2.mpr
   ⟨⟨1, "u@x.com", demoHash, none, some "rt", some 100⟩, by decide, rfl⟩⟩

/-! ## Claim C6 — lockout policy -/

/-- Iterated failed logins: fold the login step over a list of attempt
times, keeping only the resulting state. -/
def Lockout.failChain (b : Bcrypt) (u : Lockout.LockUser) (idf wrong ip : String)
    (att : List Lockout.LoginAttempt) (ts : List Nat) : Lockout.LockState :=
ts.foldl (fun s t => (Lockout.login b s idf wrong ip t).2) ⟨[u], att⟩

/-- One failed login against a single-user state: the attempt is logged
and the user goes through `increment_failed_login`. -/
theorem lockout_login_fail (b : Bcrypt) (u : Lockout.LockUser)
    (idf wrong ip : String) (att : List Lockout.LoginAttempt) (t : Nat)
    (hid : (u.username == idf || u.email == idf) = true)
    (hactive : u.is_active = true)
    (hnl : Lockout.is_locked u t = false)
    (hbad : b.checkpw wrong u.password = .ok false) :
    Lockout.login b ⟨[u], att⟩ idf wrong ip t =
      (.invalidCredentials,
       ⟨[Lockout.increment_failed_login u t], att ++ [⟨u.id, false, ip, t⟩]⟩) := by
unfold Lockout.login
have hfind : List.find? (fun v => v.username == idf || v.email == idf) [u] = some u :=
  List.find?_cons_of_pos [] hid
simp [hfind, hnl, hactive, hbad, Lockout.handle_login_attempt, updateFirst]

/-- One successful login against a single-user state: the counter and
lock are cleared and `last_login` is stamped. -/
theorem lockout_login_success (b : Bcrypt) (u : Lockout.LockUser)
    (idf pww ip : String) (att : List Lockout.LoginAttempt) (t : Nat)
    (hid : (u.username == idf || u.email == idf) = true)
    (hactive : u.is_active = true)
    (hnl : Lockout.is_locked u t = false)
    (hok : b.checkpw pww u.password = .ok true) :
    Lockout.login b ⟨[u], att⟩ idf pww ip t =
      (.success u.id,
       ⟨[{ u with failed_login_count := 0, locked_until := none, last_login := some t }],
        att ++ [⟨u.id, true, ip, t⟩]⟩) := by
unfold Lockout.login
have hfind : List.find? (fun v => v.username == idf || v.email == idf) [u] = some u :=
  List.find?_cons_of_pos [] hid
simp [hfind, hnl, hactive, hok, Lockout.handle_login_attempt, updateFirst]

/-- A login attempt against a locked single-user state is rejected
before any credential check, with no state change. -/
theorem lockout_login_locked (b : Bcrypt) (u : Lockout.LockUser)
    (idf pww ip : String) (att : List Lockout.LoginAttempt) (t : Nat)
    (hid : (u.username == idf || u.email == idf) = true)
    (hl : Lockout.is_locked u t = true) :
    Lockout.login b ⟨[u], att⟩ idf pww ip t = (.accountLocked, ⟨[u], att⟩) := by
unfold Lockout.login
have hfind : List.find? (fun v => v.username == idf || v.email == idf) [u] = some u :=
  List.find?_cons_of_pos [] hid
simp [hfind, hl]

/-- Claim C6 (confirmed; the lockout fields and the lockout-aware login
are spec-modelled, the bookkeeping is `handle_login_attempt` from the
source): a successful login resets `failed_login_count` to 0; five
consecutive failed attempts set `locked_until` to the time of the fifth
failure plus 30 minutes; while that instant lies in the future every
attempt — here one with the correct password — fails with
`AccountLocked`; once it has passed, a correct-password login succeeds
and resets the counter to 0. -/
theorem C6_lockout_threshold (b : Bcrypt) (u : Lockout.LockUser)
    (idf pw wrong ip : String) (att : List Lockout.LoginAttempt)
    (t1 t2 t3 t4 t5 t6 t7 : Nat)
    (hid : (u.username == idf || u.email == idf) = true)
    (hactive : u.is_active = true)
    (hc0 : u.failed_login_count = 0)
    (hlock : u.locked_until = none)
    (hok : b.checkpw pw u.password = .ok true)
    (hbad : b.checkpw wrong u.password = .ok false)
    (h6 : t6 < t5 + 30 * 60) (h7 : t5 + 30 * 60 ≤ t7) :
    (∀ (w : Lockout.LockUser) (att2 : List Lockout.LoginAttempt)
       (idw pww ipw : String) (t : Nat),
      (w.username == idw || w.email == idw) = true →
      w.is_active = true →
      Lockout.is_locked w t = false →
      b.checkpw pww w.password = .ok true →
      (Lockout.login b ⟨[w], att2⟩ idw pww ipw t).1 = .success w.id ∧
      ((Lockout.login b ⟨[w], att2⟩ idw pww ipw t).2).users =
        [{ w with failed_login_count := 0, locked_until := none, last_login := some t }]) ∧
    (Lockout.login b (Lockout.failChain b u idf wrong ip att []) idf wrong ip t1).1 = .invalidCredentials ∧
    (Lockout.login b (Lockout.failChain b u idf wrong ip att [t1]) idf wrong ip t2).1 = .invalidCredentials ∧
    (Lockout.login b (Lockout.failChain b u idf wrong ip att [t1, t2]) idf wrong ip t3).1 = .invalidCredentials ∧
    (Lockout.login b (Lockout.failChain b u idf wrong ip att [t1, t2, t3]) idf wrong ip t4).1 = .invalidCredentials ∧
    (Lockout.login b (Lockout.failChain b u idf wrong ip att [t1, t2, t3, t4]) idf wrong ip t5).1 = .invalidCredentials ∧
    (Lockout.failChain b u idf wrong ip att [t1, t2, t3, t4, t5]).users =
      [{ u with failed_login_count := 5, locked_until := some (t5 + 30 * 60) }] ∧
    (Lockout.login b (Lockout.failChain b u idf wrong ip att [t1, t2, t3, t4, t5]) idf pw ip t6).1 = .accountLocked ∧
    (Lockout.login b (Lockout.failChain b u idf wrong ip att [t1, t2, t3, t4, t5]) idf pw ip t7).1 = .success u.id ∧
    ((Lockout.login b (Lockout.failChain b u idf wrong ip att [t1, t2, t3, t4, t5]) idf pw ip t7).2).users =
      [{ u with failed_login_count := 0, locked_until := none, last_login := some t7 }] := by
have hl1 : Lockout.is_locked u t1 = false := by simp [Lockout.is_locked, hlock]
have st1 := lockout_login_fail b u idf wrong ip att t1 hid hactive hl1 hbad
have hinc1 : Lockout.increment_failed_login u t1 =
    { u with failed_login_count := 1, locked_until := none } := by
  simp [Lockout.increment_failed_login, hc0, hlock]
have fc1 : Lockout.failChain b u idf wrong ip att [t1] =
    ⟨[{ u with failed_login_count := 1, locked_until := none }],
     att ++ [⟨u.id, false, ip, t1⟩]⟩ := by
  show (Lockout.login b ⟨[u], att⟩ idf wrong ip t1).2 = _
  rw [st1, hinc1]
have st2 := lockout_login_fail b
  { u with failed_login_count := 1, locked_until := none }
  idf wrong ip (att ++ [⟨u.id, false, ip, t1⟩]) t2 hid hactive rfl hbad
have hinc2 : Lockout.increment_failed_login
    { u with failed_login_count := 1, locked_until := none } t2 =
    { u with failed_login_count := 2, locked_until := none } := by
  simp [Lockout.increment_failed_login]
have fc2 : Lockout.failChain b u idf wrong ip att [t1, t2] =
    ⟨[{ u with failed_login_count := 2, locked_until := none }],
     att ++ [⟨u.id, false, ip, t1⟩] ++ [⟨u.id, false, ip, t2⟩]⟩ := by
  show (Lockout.login b (Lockout.failChain b u idf wrong ip att [t1]) idf wrong ip t2).2 = _
  rw [fc1, st2, hinc2]
have st3 := lockout_login_fail b
  { u with failed_login_count := 2, locked_until := none }
  idf wrong ip (att ++ [⟨u.id, false, ip, t1⟩] ++ [⟨u.id, false, ip, t2⟩]) t3 hid hactive rfl hbad
have hinc3 : Lockout.increment_failed_login
    { u with failed_login_count := 2, locked_until := none } t3 =
    { u with failed_login_count := 3, locked_until := none } := by
  simp [Lockout.increment_failed_login]
have fc3 : Lockout.failChain b u idf wrong ip att [t1, t2, t3] =
    ⟨[{ u with failed_login_count := 3, locked_until := none }],
     att ++ [⟨u.id, false, ip, t1⟩] ++ [⟨u.id, false, ip, t2⟩] ++ [⟨u.id, false, ip, t3⟩]⟩ := by
  show (Lockout.login b (Lockout.failChain b u idf wrong ip att [t1, t2]) idf wrong ip t3).2 = _
  rw [fc2, st3, hinc3]
have st4 := lockout_login_fail b
  { u with failed_login_count := 3, locked_until := none }
  idf wrong ip
  (att ++ [⟨u.id, false, ip, t1⟩] ++ [⟨u.id, false, ip, t2⟩] ++ [⟨u.id, false, ip, t3⟩])
  t4 hid hactive rfl hbad
have hinc4 : Lockout.increment_failed_login
    { u with failed_login_count := 3, locked_until := none } t4 =
    { u with failed_login_count := 4, locked_until := none } := by
  simp [Lockout.increment_failed_login]
have fc4 : Lockout.failChain b u idf wrong ip att [t1, t2, t3, t4] =
    ⟨[{ u with failed_login_count := 4, locked_until := none }],
     att ++ [⟨u.id, false, ip, t1⟩] ++ [⟨u.id, false, ip, t2⟩] ++ [⟨u.id, false, ip, t3⟩] ++
       [⟨u.id, false, ip, t4⟩]⟩ := by
  show (Lockout.login b (Lockout.failChain b u idf wrong ip att [t1, t2, t3]) idf wrong ip t4).2 = _
  rw [fc3, st4, hinc4]
have st5 := lockout_login_fail b
  { u with failed_login_count := 4, locked_until := none }
  idf wrong ip
  (att ++ [⟨u.id, false, ip, t1⟩] ++ [⟨u.id, false, ip, t2⟩] ++ [⟨u.id, false, ip, t3⟩] ++
    [⟨u.id, false, ip, t4⟩])
  t5 hid hactive rfl hbad
have hinc5 : Lockout.increment_failed_login
    { u with failed_login_count := 4, locked_until := none } t5 =
    { u with failed_login_count := 5, locked_until := some (t5 + 30 * 60) } := by
  simp [Lockout.increment_failed_login]
have fc5 : Lockout.failChain b u idf wrong ip att [t1, t2, t3, t4, t5] =
    ⟨[{ u with failed_login_count := 5, locked_until := some (t5 + 30 * 60) }],
     att ++ [⟨u.id, false, ip, t1⟩] ++ [⟨u.id, false, ip, t2⟩] ++ [⟨u.id, false, ip, t3⟩] ++
       [⟨u.id, false, ip, t4⟩] ++ [⟨u.id, false, ip, t5⟩]⟩ := by
  show (Lockout.login b (Lockout.failChain b u idf wrong ip att [t1, t2, t3, t4]) idf wrong ip t5).2 = _
  rw [fc4, st5, hinc5]
have hl6 : Lockout.is_locked
    { u with failed_login_count := 5, locked_until := some (t5 + 30 * 60) } t6 = true := by
  simp [Lockout.is_locked]
  omega
have hl7 : Lockout.is_locked
    { u with failed_login_count := 5, locked_until := some (t5 + 30 * 60) } t7 = false := by
  simp [Lockout.is_locked]
  omega
have stL := lockout_login_locked b
  { u with failed_login_count := 5, locked_until := some (t5 + 30 * 60) }
  idf pw ip
  (att ++ [⟨u.id, false, ip, t1⟩] ++ [⟨u.id, false, ip, t2⟩] ++ [⟨u.id, false, ip, t3⟩] ++
    [⟨u.id, false, ip, t4⟩] ++ [⟨u.id, false, ip, t5⟩])
  t6 hid hl6
have stS := lockout_login_success b
  { u with failed_login_count := 5, locked_until := some (t5 + 30 * 60) }
  idf pw ip
  (att ++ [⟨u.id, false, ip, t1⟩] ++ [⟨u.id, false, ip, t2⟩] ++ [⟨u.id, false, ip, t3⟩] ++
    [⟨u.id, false, ip, t4⟩] ++ [⟨u.id, false, ip, t5⟩])
  t7 hid hactive hl7 hok
refine ⟨?_, ?_, ?_, ?_, ?_, ?_, ?_, ?_, ?_, ?_⟩
· intro w att2 idw pww ipw t hw ha hn hk
  have st := lockout_login_success b w idw pww ipw att2 t hw ha hn hk
  exact ⟨by rw [st], by rw [st]⟩
· show (Lockout.login b ⟨[u], att⟩ idf wrong ip t1).1 = _
  rw [st1]
· rw [fc1, st2]
· rw [fc2, st3]
· rw [fc3, st4]
· rw [fc4, st5]
· rw [fc5]
· rw [fc5, stL]
· rw [fc5, stS]
· rw [fc5, stS]

/-- The concrete user for the lockout witness. -/
def demoLockUser : Lockout.LockUser :=
⟨1, "alice", "a@x.com", demoHash, true, none, 0, none⟩

/-- Witness for C6: five wrong-password attempts at times 10..50 lock
the account until 50 + 1800; the correct password is rejected at time
100 and succeeds at time 2000 with the counter reset. -/
theorem C6_lockout_threshold_witness :
    (Lockout.failChain bDemo demoLockUser "alice" "wrongpass" "1.2.3.4" []
        [10, 20, 30, 40, 50]).users =
      [{ demoLockUser with failed_login_count := 5, locked_until := some (50 + 30 * 60) }] ∧
    (Lockout.login bDemo
      (Lockout.failChain bDemo demoLockUser "alice" "wrongpass" "1.2.3.4" []
        [10, 20, 30, 40, 50]) "alice" demoPw "1.2.3.4" 100).1 = .accountLocked ∧
    (Lockout.login bDemo
      (Lockout.failChain bDemo demoLockUser "alice" "wrongpass" "1.2.3.4" []
        [10, 20, 30, 40, 50]) "alice" demoPw "1.2.3.4" 2000).1 = .success 1 ∧
    ((Lockout.login bDemo
      (Lockout.failChain bDemo demoLockUser "alice" "wrongpass" "1.2.3.4" []
        [10, 20, 30, 40, 50]) "alice" demoPw "1.2.3.4" 2000).2).users =
      [{ demoLockUser with failed_login_count := 0, locked_until := none,
                           last_login := some 2000 }] := by
have h := C6_lockout_threshold bDemo demoLockUser "alice" demoPw "wrongpass" "1.2.3.4" []
  10 20 30 40 50 100 2000
  (by decide) (by decide) (by decide) (by decide) (by decide) (by decide)
  (by decide) (by decide)
exact ⟨h.2.2.2.2.2.2.1, h.2.2.2.2.2.2.2.1, h.2.2.2.2.2.2.2.2.1, h.2.2.2.2.2.2.2.2.2⟩

/-! ## Claim C10 — token issuance has no user-existence precondition -/

/-- Claim C10 (confirmed): `generate_token` takes any integer user id —
no user store is consulted at all — and, for a fresh token value (the
`uuid4()` guarantee), succeeds, stores an active mapping, and the token
immediately validates as `(true, user_id)`; the access-control gate is
what checks user existence, and only after the token has validated (a
valid token whose user id matches no user is answered with the
user-not-found response, not with the invalid-token response). -/
theorem C10_generate_token_roundtrip
    (lifetime : Nat) (s : TokenManager.TMState) (uid : Int) (now : Nat) (tok : String)
    (hfresh : s.token_users.any (fun tu => tu.token == tok) = false)
    (hnb : s.blacklist.any (fun bt => bt.token == tok) = false)
    (g : Gate.GateState) (req : List String) (tok2 : String) (uid2 : Int) (hdr : String)
    (hval : Gate.validate_session_token g tok2 = some uid2)
    (hnouser : g.users.find? (fun e => e.1 == uid2) = none)
    (hb : strStartsWith hdr "Bearer " = true)
    (hsplit : (strSplitOnSpace hdr).getD 1 "" = tok2) :
    (∃ s2 : TokenManager.TMState,
      TokenManager.generate_token lifetime s uid now tok =
        .ok (s2, tok, now + lifetime * 3600) ∧
      (⟨tok, uid, now, now + lifetime * 3600, true⟩ : TokenManager.TokenUser) ∈ s2.token_users ∧
      TokenManager.validate_token s2 tok now = .ok (true, some uid)) ∧
    Gate.require_role g req (some hdr) = .denied 404 "User not found" := by
constructor
· refine ⟨{ s with token_users :=
      s.token_users ++ [⟨tok, uid, now, now + lifetime * 3600, true⟩] }, ?_, ?_, ?_⟩
  · simp [TokenManager.generate_token, hfresh]
  · simp
  · have hleft : s.token_users.find? (fun tu => tu.token == tok && tu.is_active) = none := by
      rw [List.find?_eq_none]
      intro x hx hpx
      rw [Bool.and_eq_true] at hpx
      have := List.any_eq_false.mp hfresh x hx
      simp [hpx.1] at this
    have hfind : ((s.token_users ++ [⟨tok, uid, now, now + lifetime * 3600, true⟩] :
        List TokenManager.TokenUser).find? (fun tu => tu.token == tok && tu.is_active)) =
        some ⟨tok, uid, now, now + lifetime * 3600, true⟩ := by
      rw [find?_append_left_none _ _ _ hleft]
      exact List.find?_cons_of_pos [] (by simp)
    have hexp : ¬ (now + lifetime * 3600 < now) := by omega
    simp [TokenManager.validate_token, hnb, hfind, hexp]
· have hgate : Gate.require_role g req (some hdr) =
      (match Gate.validate_session_token g ((strSplitOnSpace hdr).getD 1 "") with
       | none => Gate.GateResult.denied 401 "Invalid or expired token"
       | some uid =>
         match g.users.find? (fun e => e.1 == uid) with
         | none => Gate.GateResult.denied 404 "User not found"
         | some (_, user_roles) =>
           if !req.any (fun r => user_roles.contains r) then
             Gate.GateResult.denied 403 "Access denied"
           else
             Gate.GateResult.allowed uid) := by
    simp [Gate.require_role, hb]
  rw [hgate, hsplit]
  simp [hval, hnouser]

/-- The gate state for the C10 witness: a session for user 42 with no
user record behind it. -/
def gateC10 : Gate.GateState :=
{ redis := [("session:tk9", 42)], users := [] }

/-- Witness for C10 at an empty token store, user id 42 (no user table
exists in the `TokenManager` state at all), and the concrete gate
state. -/
theorem C10_generate_token_roundtrip_witness :
    (∃ s2 : TokenManager.TMState,
      TokenManager.generate_token 24 ⟨[], []⟩ 42 100 "fresh-tok" =
        .ok (s2, "fresh-tok", 100 + 24 * 3600) ∧
      (⟨"fresh-tok", 42, 100, 100 + 24 * 3600, true⟩ : TokenManager.TokenUser) ∈ s2.token_users ∧
      TokenManager.validate_token s2 "fresh-tok" 100 = .ok (true, some 42)) ∧
    Gate.require_role gateC10 ["admin"] (some "Bearer tk9") =
      .denied 404 "User not found" :=
C10_generate_token_roundtrip 24 ⟨[], []⟩ 42 100 "fresh-tok" (by decide) (by decide)
  gateC10 ["admin"] "tk9" 42 "Bearer tk9" (by decide) (by decide) (by decide) (by decide)
